import Mathlib

/-!
A verification development for the core of the `probe` test agent:
the heuristic failure classifier (`BugDetector`), the self-healing
strategy selection (`Agent.selectHealingStrategy`, `SelfHealer.selectStrategy`),
the per-step retry loop (`Agent.executeStep`) and the scenario runner
(`Agent.runScenario`), shallowly embedded as executable Lean functions.

Numbers that are JavaScript `number`s carrying scores are modelled as `Nat`,
HTTP status codes as `Int`, confidences as `ℚ`, and `Date` timestamps as an
abstract `Nat` tick supplied by the caller.
-/

namespace Probe

/-! ## JavaScript string and truthiness helpers -/

/-- Does `l` start with `pat`? -/
def charsStartWith : List Char → List Char → Bool
  | _, [] => true
  | [], _ :: _ => false
  | c :: cs, p :: ps => c == p && charsStartWith cs ps

/-- Does `l` contain `pat` as a contiguous run? -/
def charsContain : List Char → List Char → Bool
  | [], pat => pat.isEmpty
  | c :: cs, pat => charsStartWith (c :: cs) pat || charsContain cs pat

/-- JS `String.prototype.includes`: substring test. -/
def jsIncludes (s pat : String) : Bool :=
  charsContain s.toList pat.toList

/-- `String.prototype.toLowerCase`, defined over the character list so it
reduces inside the kernel. -/
def strToLower (s : String) : String := ⟨s.data.map Char.toLower⟩

/-- `String.prototype.slice(0, n)`, defined over the character list. -/
def strTake (s : String) (n : Nat) : String := ⟨s.data.take n⟩

/-- JS truthiness of an optional number field (`undefined` and `0` are falsy). -/
def numTruthy : Option Int → Bool
  | none => false
  | some n => n != 0

/-- JS truthiness of an optional string field (`undefined` and `""` are falsy). -/
def strTruthy : Option String → Bool
  | none => false
  | some s => s != ""

/-- JS `a || b` for an optional string `a` with default `b`
(falls through on `undefined` and on the empty string). -/
def jsOrStr : Option String → String → String
  | none, d => d
  | some s, d => if s = "" then d else s

/-- JS `Array.prototype.slice(-n)`: the last `n` elements. -/
def takeRight (n : Nat) (l : List String) : List String :=
  l.drop (l.length - n)

/-! ## Data model (from `src/agent/types.ts`) -/

inductive BugClassification where
  | app_bug
  | agent_bug
  | environment_issue
  | test_issue
  | unknown
deriving DecidableEq, Repr

inductive HealingStrategy where
  | wait_and_retry
  | refresh_and_retry
  | alternative_selector
  | screenshot_analysis
  | reset_to_known_state
deriving DecidableEq, Repr

inductive Severity where
  | critical
  | high
  | medium
  | low
deriving DecidableEq, Repr

structure NetworkError where
  url : String
  method : String
  status : Option Int
  error : Option String
deriving DecidableEq, Repr

structure Bounds where
  x : Int
  y : Int
  width : Int
  height : Int
deriving DecidableEq, Repr

structure InteractiveElement where
  id : String
  type : String
  selector : String
  playwrightLocator : String
  text : String
  placeholder : Option String
  value : Option String
  disabled : Bool
  visible : Bool
  ariaLabel : Option String
  role : Option String
  bounds : Bounds
deriving DecidableEq, Repr

structure FormFieldInfo where
  name : String
  type : String
  label : Option String
  required : Bool
  value : Option String
  options : Option (List String)
  element : InteractiveElement
deriving DecidableEq, Repr

structure FormInfo where
  id : String
  action : Option String
  method : Option String
  fields : List FormFieldInfo
  submitButton : Option InteractiveElement
deriving DecidableEq, Repr

structure ModalInfo where
  title : String
  visible : Bool
deriving DecidableEq, Repr

structure ToastInfo where
  type : String
  message : String
deriving DecidableEq, Repr

structure PageObservation where
  url : String
  title : String
  interactiveElements : List InteractiveElement
  forms : List FormInfo
  modals : List ModalInfo
  toasts : List ToastInfo
  loadingIndicators : Bool
  consoleErrors : List String
  networkErrors : List NetworkError
  screenshot : Option String
  timestamp : Nat
deriving DecidableEq, Repr

/-- A JS `Error` value; only its `message` is consulted by the core. -/
structure JsError where
  message : String
deriving DecidableEq, Repr

structure PlannedAction where
  type : String
  target : String
  value : Option String
  description : String
deriving DecidableEq, Repr

structure ActionPlan where
  reasoning : String
  actions : List PlannedAction
  expectedOutcome : String
  confidence : ℚ
deriving DecidableEq, Repr

structure Assertion where
  type : String
  target : Option String
  value : Option String
  operator : Option String
deriving DecidableEq, Repr

structure ScenarioStep where
  name : String
  goal : String
  startUrl : Option String
  assertions : Option (List Assertion)
  maxAttempts : Option Nat
  timeout : Option Nat
deriving DecidableEq, Repr

structure DetectedBug where
  classification : BugClassification
  confidence : ℚ
  title : String
  description : String
  severity : Severity
  reproductionSteps : List String
  expectedBehavior : String
  actualBehavior : String
  screenshots : List String
  consoleErrors : List String
  networkErrors : List NetworkError
  url : String
  timestamp : Nat
  sessionId : String
deriving DecidableEq, Repr

/-! ## ClaudeClient oracle (from the `ClaudeClient` source concatenated in
`src/agent/Executor.ts`) -/

namespace ClaudeClient

/-- `parseActionPlan`: the JSON object parsed out of the oracle's reply is
returned as the `ActionPlan` unchanged — in particular its confidence is
not clamped or validated. The argument stands for the successfully parsed
JSON object (the prompting and network round-trip are abstracted away). -/
def parseActionPlan (parsed : ActionPlan) : ActionPlan := parsed

/-- `parseDiagnosis`: the JSON object parsed out of the oracle's reply,
spread with the enrichment fields reset to blanks and a fresh timestamp;
the parsed confidence is passed through without clamping or validation. -/
def parseDiagnosis (parsed : DetectedBug) (now : Nat) : DetectedBug :=
  { parsed with
    screenshots := []
    consoleErrors := []
    networkErrors := []
    url := ""
    timestamp := now
    sessionId := "" }

/-- `planActions`: prompt the oracle and parse its reply. -/
def planActions (parsed : ActionPlan) : ActionPlan := parseActionPlan parsed

/-- `diagnoseBug`: prompt the oracle and parse its reply. -/
def diagnoseBug (parsed : DetectedBug) (now : Nat) : DetectedBug :=
  parseDiagnosis parsed now

end ClaudeClient

/-! ## BugDetector heuristics (from `src/bugs/BugDetector.ts`) -/

namespace BugDetector

/-- Result of one signal detector: human-readable indicators and a score. -/
structure DetectorResult where
  indicators : List String
  score : Nat
deriving DecidableEq, Repr

structure HeuristicResult where
  classification : BugClassification
  confidence : ℚ
  indicators : List String
deriving DecidableEq, Repr

structure DiagnosisContext where
  step : ScenarioStep
  error : JsError
  observation : PageObservation
  actionHistory : List String
deriving DecidableEq, Repr

/-- `CONFIDENCE_THRESHOLD.HIGH` -/
def CONFIDENCE_THRESHOLD_HIGH : ℚ := 8 / 10

/-- `CONFIDENCE_THRESHOLD.LOW` -/
def CONFIDENCE_THRESHOLD_LOW : ℚ := 3 / 10

/-- `isJavaScriptError`: console error text matches a JS error pattern. -/
def isJavaScriptError (error : String) : Bool :=
  let lowerError := strToLower error
  jsIncludes lowerError "typeerror" ||
  jsIncludes lowerError "referenceerror" ||
  jsIncludes lowerError "syntaxerror" ||
  jsIncludes lowerError "uncaught" ||
  jsIncludes lowerError "unhandled" ||
  jsIncludes lowerError "exception" ||
  jsIncludes lowerError "error:"

/-- `isReactError`: console error text matches a React-specific pattern. -/
def isReactError (error : String) : Bool :=
  let lowerError := strToLower error
  jsIncludes lowerError "react" ||
  jsIncludes lowerError "hydration" ||
  jsIncludes lowerError "warning:" ||
  jsIncludes lowerError "each child in a list" ||
  jsIncludes lowerError "invalid hook call" ||
  jsIncludes lowerError "cannot update" ||
  jsIncludes lowerError "maximum update depth"

/-- `isNetworkConnectionError`: connection failure as opposed to an HTTP error. -/
def isNetworkConnectionError (e : NetworkError) : Bool :=
  if strTruthy e.error && !(numTruthy e.status) then
    true
  else if strTruthy e.error then
    let lowerError := strToLower (e.error.getD "")
    jsIncludes lowerError "net::" ||
    jsIncludes lowerError "connection" ||
    jsIncludes lowerError "timeout" ||
    jsIncludes lowerError "aborted"
  else
    false

/-- Render an optional status the way JS template interpolation would. -/
def statusText : Option Int → String
  | none => "undefined"
  | some s => toString s

/-- `detectAppBugIndicators` -/
def detectAppBugIndicators (observation : PageObservation) (errorMessage : String) :
    DetectorResult := Id.run do
  let mut indicators : List String := []
  let mut score : Nat := 0
  let serverErrors := observation.networkErrors.filter
    (fun e => numTruthy e.status &&
      e.status.getD 0 ≥ 500 && e.status.getD 0 < 600)
  if serverErrors.length > 0 then
    indicators := indicators ++
      ["Server errors (5xx): " ++ String.intercalate ", "
        (serverErrors.map (fun e => statusText e.status ++ " on " ++ e.url))]
    score := score + 3
  let jsErrors := observation.consoleErrors.filter isJavaScriptError
  if jsErrors.length > 0 then
    indicators := indicators ++
      ["JavaScript errors: " ++ toString jsErrors.length ++ " found"]
    score := score + 2
  let reactErrors := observation.consoleErrors.filter isReactError
  if reactErrors.length > 0 then
    indicators := indicators ++
      ["React errors: " ++ toString reactErrors.length ++ " found"]
    score := score + 2
  let apiErrors := observation.networkErrors.filter
    (fun e => numTruthy e.status &&
      e.status.getD 0 ≥ 400 && e.status.getD 0 < 500 &&
      e.status.getD 0 != 401 && e.status.getD 0 != 403)
  if apiErrors.length > 0 then
    indicators := indicators ++
      ["API errors (4xx): " ++ String.intercalate ", "
        (apiErrors.map (fun e => statusText e.status ++ " on " ++ e.url))]
    score := score + 2
  if jsIncludes errorMessage "undefined is not" ||
      jsIncludes errorMessage "cannot read property" ||
      jsIncludes errorMessage "is not a function" ||
      jsIncludes errorMessage "null reference" then
    indicators := indicators ++ ["Error suggests runtime JavaScript error"]
    score := score + 2
  return ⟨indicators, score⟩

/-- `detectAgentBugIndicators` -/
def detectAgentBugIndicators (observation : PageObservation) (errorMessage : String) :
    DetectorResult := Id.run do
  let mut indicators : List String := []
  let mut score : Nat := 0
  if jsIncludes errorMessage "no element" ||
      jsIncludes errorMessage "not found" ||
      jsIncludes errorMessage "unable to find" ||
      jsIncludes errorMessage "could not find" then
    if observation.interactiveElements.length > 0 then
      indicators := indicators ++
        ["Element not found but page has interactive elements - possible selector issue"]
      score := score + 2
    else
      indicators := indicators ++
        ["Element not found - page may be empty or still loading"]
      score := score + 1
  if jsIncludes errorMessage "timeout" ||
      jsIncludes errorMessage "waiting for" ||
      jsIncludes errorMessage "timed out" then
    if !observation.loadingIndicators then
      indicators := indicators ++
        ["Timeout without loading indicators - possible timing issue in agent"]
      score := score + 2
    else
      indicators := indicators ++
        ["Timeout with loading indicators - app may be slow"]
      score := score + 1
  if jsIncludes errorMessage "not interactable" ||
      jsIncludes errorMessage "obscured" ||
      jsIncludes errorMessage "covered by" then
    indicators := indicators ++
      ["Element not interactable - agent may have selected wrong element or timing issue"]
    score := score + 2
  if jsIncludes errorMessage "invalid selector" ||
      jsIncludes errorMessage "syntax error" then
    indicators := indicators ++
      ["Invalid selector syntax - agent bug in selector generation"]
    score := score + 3
  if jsIncludes errorMessage "not attached" ||
      jsIncludes errorMessage "detached" ||
      jsIncludes errorMessage "stale element" then
    indicators := indicators ++ ["Element detached - action executed too quickly"]
    score := score + 2
  return ⟨indicators, score⟩

/-- `detectEnvironmentIndicators` -/
def detectEnvironmentIndicators (observation : PageObservation) (errorMessage : String) :
    DetectorResult := Id.run do
  let mut indicators : List String := []
  let mut score : Nat := 0
  let networkFailures := observation.networkErrors.filter isNetworkConnectionError
  if networkFailures.length > 0 then
    indicators := indicators ++
      ["Network connection errors: " ++ toString networkFailures.length ++ " failures"]
    score := score + 3
  let authErrors := observation.networkErrors.filter
    (fun e => e.status == some 401 || e.status == some 403)
  if authErrors.length > 0 then
    indicators := indicators ++
      ["Authentication errors: " ++ toString authErrors.length ++ " (401/403 responses)"]
    score := score + 2
  if jsIncludes errorMessage "econnrefused" ||
      jsIncludes errorMessage "enotfound" ||
      jsIncludes errorMessage "connection refused" ||
      jsIncludes errorMessage "dns" ||
      jsIncludes errorMessage "unreachable" then
    indicators := indicators ++ ["Server unreachable or DNS failure"]
    score := score + 3
  if jsIncludes errorMessage "ssl" ||
      jsIncludes errorMessage "tls" ||
      jsIncludes errorMessage "certificate" then
    indicators := indicators ++ ["SSL/TLS certificate error"]
    score := score + 2
  if jsIncludes errorMessage "browser has disconnected" ||
      jsIncludes errorMessage "target closed" ||
      jsIncludes errorMessage "context has been destroyed" then
    indicators := indicators ++ ["Browser context error - environment issue"]
    score := score + 2
  return ⟨indicators, score⟩

/-- `analyzeWithHeuristics`: score the three hypotheses and decide. -/
def analyzeWithHeuristics (error : JsError) (observation : PageObservation) :
    HeuristicResult :=
  let errorMessage := strToLower error.message
  let appBug := detectAppBugIndicators observation errorMessage
  let agentBug := detectAgentBugIndicators observation errorMessage
  let env := detectEnvironmentIndicators observation errorMessage
  let indicators := appBug.indicators ++ agentBug.indicators ++ env.indicators
  let appBugScore := appBug.score
  let agentBugScore := agentBug.score
  let envIssueScore := env.score
  let totalScore := appBugScore + agentBugScore + envIssueScore
  if totalScore = 0 then
    ⟨BugClassification.unknown, 0, indicators⟩
  else
    let maxScore := max appBugScore (max agentBugScore envIssueScore)
    let confidence : ℚ := (maxScore : ℚ) / ((totalScore : ℚ) + 1)
    let classification :=
      if maxScore = appBugScore then BugClassification.app_bug
      else if maxScore = agentBugScore then BugClassification.agent_bug
      else if maxScore = envIssueScore then BugClassification.environment_issue
      else BugClassification.unknown
    ⟨classification, confidence, indicators⟩

/-- `truncate`: cut a string to `maxLength`, appending an ellipsis. -/
def truncate (str : String) (maxLength : Nat) : String :=
  if str.length ≤ maxLength then str
  else strTake str (maxLength - 3) ++ "..."

/-- Model of `new URL(url).pathname`: `none` when the URL fails to parse
(no scheme separator), otherwise the path part after the host, with the
query and fragment stripped. -/
def urlPathname (url : String) : Option String :=
  match url.splitOn "://" with
  | [_, rest] =>
    let noFrag := (rest.splitOn "#").headD rest
    let noQuery := (noFrag.splitOn "?").headD noFrag
    match noQuery.splitOn "/" with
    | [] => some ""
    | _ :: segs => some ("/" ++ String.intercalate "/" segs)
  | _ => none

/-- `extractPageName`: the page name used in synthesized bug titles. -/
def extractPageName (url : String) : String :=
  match urlPathname url with
  | none => "page"
  | some path =>
    if path = "/" ∨ path = "" then "home page"
    else
      let segments := (path.splitOn "/").filter (fun s => s ≠ "")
      match segments.getLast? with
      | some s => s
      | none => "page"

/-- `determineSeverity`: severity derived from classification and indicators. -/
def determineSeverity (classification : BugClassification)
    (indicators : List String) : Severity :=
  let hasServerError := indicators.any
    (fun i => jsIncludes i "5xx" || jsIncludes i "Server error")
  let hasJsError := indicators.any
    (fun i => jsIncludes i "JavaScript error" || jsIncludes i "React error")
  match classification with
  | BugClassification.app_bug =>
    if hasServerError then Severity.critical
    else if hasJsError then Severity.high
    else Severity.medium
  | BugClassification.agent_bug =>
    if indicators.any (fun i => jsIncludes i "Invalid selector") then Severity.high
    else Severity.medium
  | BugClassification.environment_issue =>
    if indicators.any (fun i => jsIncludes i "unreachable" || jsIncludes i "connection")
    then Severity.high
    else Severity.medium
  | _ => Severity.low

/-- `generateTitle`: synthesize a bug title from classification, error and page. -/
def generateTitle (classification : BugClassification) (error : JsError)
    (observation : PageObservation) : String :=
  let page := extractPageName observation.url
  match classification with
  | BugClassification.app_bug =>
    let serverErrors := observation.networkErrors.filter
      (fun e => numTruthy e.status && e.status.getD 0 ≥ 500)
    match serverErrors with
    | e :: _ => "Server error " ++ statusText e.status ++ " on " ++ page
    | [] =>
      if observation.consoleErrors.length > 0 then
        "JavaScript error on " ++ page
      else
        "Application error on " ++ page ++ ": " ++ truncate error.message 50
  | BugClassification.agent_bug =>
    if jsIncludes (strToLower error.message) "selector" then
      "Selector issue on " ++ page
    else if jsIncludes (strToLower error.message) "timeout" then
      "Timing issue on " ++ page
    else
      "Agent error on " ++ page ++ ": " ++ truncate error.message 50
  | BugClassification.environment_issue =>
    if jsIncludes (strToLower error.message) "connection" then
      "Network connectivity issue"
    else if observation.networkErrors.any
        (fun e => e.status == some 401 || e.status == some 403) then
      "Authentication expired"
    else
      "Environment issue: " ++ truncate error.message 50
  | _ => "Unknown failure on " ++ page ++ ": " ++ truncate error.message 50

/-- Display name used in heuristic descriptions:
`classification.replace(underscore, space)` (first occurrence only). -/
def classificationDisplay : BugClassification → String
  | BugClassification.app_bug => "app bug"
  | BugClassification.agent_bug => "agent bug"
  | BugClassification.environment_issue => "environment issue"
  | BugClassification.test_issue => "test issue"
  | BugClassification.unknown => "unknown"

/-- `createBugFromHeuristics`: build a `DetectedBug` directly from heuristic
analysis. The `timestamp` of the surrounding `new Date()` call is passed in
as `now`. -/
def createBugFromHeuristics (context : DiagnosisContext)
    (heuristic : HeuristicResult) (now : Nat) : DetectedBug :=
  let severity := determineSeverity heuristic.classification heuristic.indicators
  let title := generateTitle heuristic.classification context.error context.observation
  let description :=
    "Heuristic analysis detected " ++ classificationDisplay heuristic.classification ++
    ".\n\nIndicators:\n" ++
    String.intercalate "\n" (heuristic.indicators.map (fun i => "- " ++ i))
  let reproductionSteps :=
    ["Navigate to " ++ context.observation.url] ++
    takeRight 5 context.actionHistory ++
    ["Attempt: " ++ context.step.goal, "Error: " ++ context.error.message]
  { classification := heuristic.classification
    confidence := heuristic.confidence
    title := title
    description := description
    severity := severity
    reproductionSteps := reproductionSteps
    expectedBehavior := context.step.goal
    actualBehavior := context.error.message
    screenshots := []
    consoleErrors := []
    networkErrors := []
    url := ""
    timestamp := now
    sessionId := "" }

/-- `enrichBug`: overwrite the context fields of a bug from the triggering
observation; `sessionId` is set to the empty string ("will be set by caller"). -/
def enrichBug (bug : DetectedBug) (context : DiagnosisContext) (now : Nat) :
    DetectedBug :=
  { bug with
    url := context.observation.url
    screenshots := match context.observation.screenshot with
      | some s => [s]
      | none => []
    consoleErrors := context.observation.consoleErrors
    networkErrors := context.observation.networkErrors
    timestamp := now
    sessionId := "" }

/-- `diagnose`: heuristic classification first; when its confidence is at
least the high threshold build the bug from heuristics, otherwise fall back
to the oracle (whose parsed reply is the `oracleRaw` argument) and append
the heuristic indicators when they carry at least low confidence. The
result is always enriched via `enrichBug`. -/
def diagnose (context : DiagnosisContext) (oracleRaw : DetectedBug) (now : Nat) :
    DetectedBug :=
  let heuristic := analyzeWithHeuristics context.error context.observation
  let bug :=
    if heuristic.confidence ≥ CONFIDENCE_THRESHOLD_HIGH then
      createBugFromHeuristics context heuristic now
    else
      let oracleBug := ClaudeClient.diagnoseBug oracleRaw now
      if heuristic.indicators.length > 0 ∧
          heuristic.confidence ≥ CONFIDENCE_THRESHOLD_LOW then
        { oracleBug with
          description := oracleBug.description ++ "\n\nHeuristic indicators:\n" ++
            String.intercalate "\n" (heuristic.indicators.map (fun i => "- " ++ i)) }
      else oracleBug
  enrichBug bug context now

end BugDetector

/-! ## SelfHealer (from `src/agent/SelfHealer.ts`) -/

namespace SelfHealer

/-- `RecoveryContext` -/
structure RecoveryContext where
  error : JsError
  observation : PageObservation
  plan : ActionPlan
  strategy : HealingStrategy
  failedAction : Option PlannedAction
  baseUrl : Option String
  stepStartUrl : Option String
deriving DecidableEq, Repr

/-- `RecoveryResult` -/
structure RecoveryResult where
  success : Bool
  updatedPlan : Option ActionPlan
  newObservation : Option PageObservation
  message : String
deriving DecidableEq, Repr

/-- External behavior consumed during one recovery: the two loading-indicator
polls of `wait_and_retry`, the fresh observation each strategy captures, and
the raw plan the oracle would return for the strategies that consult it. -/
structure HealEnv where
  loadingCheck1 : Bool
  loadingCheck2 : Bool
  freshObservation : PageObservation
  oracleRawPlan : ActionPlan
deriving DecidableEq, Repr

/-- `waitAndRetry`: bounded backoff polling for loading indicators, then a
settle wait, then a fresh observation; the second component records the
`waitForTimeout` delays performed (in ms), mirroring the branch structure. -/
def waitAndRetry (env : HealEnv) : RecoveryResult × List Nat :=
  let loadingDelays :=
    if env.loadingCheck1 then
      if env.loadingCheck2 then [500, 2000] else [500]
    else []
  let delays := loadingDelays ++ [500]
  (⟨true, none, some env.freshObservation, "Waited for page to stabilize"⟩, delays)

/-- `refreshAndRetry`: reload, wait for network idle, settle, observe. -/
def refreshAndRetry (env : HealEnv) : RecoveryResult :=
  ⟨true, none, some env.freshObservation, "Page refreshed and stabilized"⟩

/-- `findAlternativeSelector`: ask the oracle for an alternative plan;
succeed only when it returns at least one action. -/
def findAlternativeSelector (_context : RecoveryContext) (env : HealEnv) :
    RecoveryResult :=
  let updatedPlan := ClaudeClient.planActions env.oracleRawPlan
  if updatedPlan.actions.length = 0 then
    ⟨false, none, some env.freshObservation,
      "Claude could not find an alternative approach"⟩
  else
    ⟨true, some updatedPlan, some env.freshObservation,
      "Found alternative approach: " ++ updatedPlan.reasoning⟩

/-- `analyzeScreenshot`: ask the oracle for a recovery plan; fail only when
it returns zero actions and confidence below `0.5`. -/
def analyzeScreenshot (_context : RecoveryContext) (env : HealEnv) :
    RecoveryResult :=
  let recoveryPlan := ClaudeClient.planActions env.oracleRawPlan
  if recoveryPlan.actions.length = 0 ∧ recoveryPlan.confidence < 1 / 2 then
    ⟨false, none, some env.freshObservation,
      "Screenshot analysis could not determine recovery path"⟩
  else
    ⟨true, some recoveryPlan, some env.freshObservation,
      "Screenshot analysis: " ++ recoveryPlan.reasoning⟩

/-- `resetToKnownState`: navigate to `stepStartUrl || baseUrl || "/"`,
dismiss modals, settle, observe. -/
def resetToKnownState (context : RecoveryContext) (env : HealEnv) :
    RecoveryResult :=
  let resetUrl := jsOrStr context.stepStartUrl (jsOrStr context.baseUrl "/")
  ⟨true, none, some env.freshObservation, "Reset to known state: " ++ resetUrl⟩

/-- `attemptRecovery`: dispatch on the requested strategy. -/
def attemptRecovery (context : RecoveryContext) (env : HealEnv) : RecoveryResult :=
  match context.strategy with
  | HealingStrategy.wait_and_retry => (waitAndRetry env).1
  | HealingStrategy.refresh_and_retry => refreshAndRetry env
  | HealingStrategy.alternative_selector => findAlternativeSelector context env
  | HealingStrategy.screenshot_analysis => analyzeScreenshot context env
  | HealingStrategy.reset_to_known_state => resetToKnownState context env

/-- `SelfHealer.selectStrategy`: strategy selection keyed on the attempt
number and the lower-cased error text. This variant also recognizes the
substrings `locator` and `navigation`. -/
def selectStrategy (error : JsError) (attempt : Nat) : HealingStrategy :=
  let errorMessage := strToLower error.message
  if attempt = 1 then
    HealingStrategy.wait_and_retry
  else if attempt = 2 then
    if jsIncludes errorMessage "timeout" ||
        jsIncludes errorMessage "not found" ||
        jsIncludes errorMessage "no element" ||
        jsIncludes errorMessage "locator" then
      HealingStrategy.alternative_selector
    else if jsIncludes errorMessage "network" ||
        jsIncludes errorMessage "loading" ||
        jsIncludes errorMessage "hydrat" ||
        jsIncludes errorMessage "navigation" then
      HealingStrategy.refresh_and_retry
    else
      HealingStrategy.screenshot_analysis
  else
    HealingStrategy.reset_to_known_state

end SelfHealer

/-! ## Agent (from `src/agent/Agent.ts`) -/

namespace Agent

/-- `MAX_HEALING_ATTEMPTS` -/
def MAX_HEALING_ATTEMPTS : Nat := 3

/-- `Agent.selectHealingStrategy`: the strategy selection the step runner
actually uses (`handleStepFailure` calls this private method, not
`SelfHealer.selectStrategy`). Its attempt-2 substring lists lack `locator`
and `navigation`. -/
def selectHealingStrategy (error : JsError) (attempt : Nat) : HealingStrategy :=
  let errorMessage := strToLower error.message
  if attempt = 1 then
    HealingStrategy.wait_and_retry
  else if attempt = 2 then
    if jsIncludes errorMessage "timeout" ||
        jsIncludes errorMessage "not found" ||
        jsIncludes errorMessage "no element" then
      HealingStrategy.alternative_selector
    else if jsIncludes errorMessage "network" ||
        jsIncludes errorMessage "loading" ||
        jsIncludes errorMessage "hydrat" then
      HealingStrategy.refresh_and_retry
    else
      HealingStrategy.screenshot_analysis
  else
    HealingStrategy.reset_to_known_state

/-- `Agent.diagnoseBug`: delegate to the oracle's diagnosis capability and
enrich the answer with the triggering observation, a timestamp and the
agent's session identifier (`this.sessionId || ''`). -/
def diagnoseBug (sessionId : Option String) (oracleRaw : DetectedBug)
    (observation : PageObservation) (now : Nat) : DetectedBug :=
  let diagnosis := ClaudeClient.diagnoseBug oracleRaw now
  { diagnosis with
    url := observation.url
    screenshots := match observation.screenshot with
      | some s => [s]
      | none => []
    consoleErrors := observation.consoleErrors
    networkErrors := observation.networkErrors
    timestamp := now
    sessionId := jsOrStr sessionId "" }

/-- External behavior of one attempt of a step, as seen by `executeStep`:
`passed` is whether the observe→plan→execute→validate cycle completed with
a passing validation (any exception or failing validation makes it false),
`healSuccess` is whether `handleStepFailure` reports recovery when invoked
at this attempt, and `bug` is the diagnosis `diagnoseBug` would produce at
this attempt. -/
structure AttemptEnv where
  passed : Bool
  healSuccess : Bool
  bug : DetectedBug
deriving DecidableEq, Repr

/-- `StepExecutionResult` -/
structure StepExecutionResult where
  success : Bool
  attempts : Nat
  bug : Option DetectedBug
deriving DecidableEq, Repr

/-- The effective attempt budget: `step.maxAttempts ?? MAX_HEALING_ATTEMPTS`,
with no lower clamp. -/
def effectiveBudget (step : ScenarioStep) : Nat :=
  step.maxAttempts.getD MAX_HEALING_ATTEMPTS

/-- The `while (attempt < maxAttempts)` loop of `executeStep`. `fuel` is the
count of remaining attempts (`maxAttempts - attempt`), `attempt` is the
number of attempts consumed so far, `bug` the last diagnosis (if any), and
`heals` / `classifies` count invocations of `handleStepFailure` and
`diagnoseBug`. The guard `attempt < maxAttempts` inside the catch block is
`fuel ≠ 0` after the increment. -/
def executeStepLoop (env : Nat → AttemptEnv) :
    Nat → Nat → Option DetectedBug → Nat → Nat →
    StepExecutionResult × Nat × Nat
  | 0, attempt, bug, heals, classifies =>
    (⟨false, attempt, bug⟩, heals, classifies)
  | fuel + 1, attempt, bug, heals, classifies =>
    let a := attempt + 1
    let e := env a
    if e.passed then
      (⟨true, a, none⟩, heals, classifies)
    else if fuel = 0 then
      executeStepLoop env fuel a (some e.bug) heals (classifies + 1)
    else if e.healSuccess then
      executeStepLoop env fuel a bug (heals + 1) classifies
    else
      executeStepLoop env fuel a (some e.bug) (heals + 1) (classifies + 1)

/-- `executeStep`: run one scenario step with healing, against the abstract
per-attempt behavior `env` (attempt numbers are 1-based). Returns the step
result together with the number of healing and classifier invocations. -/
def executeStep (step : ScenarioStep) (env : Nat → AttemptEnv) :
    StepExecutionResult × Nat × Nat :=
  executeStepLoop env (effectiveBudget step) 0 none 0 0

/-- `ScenarioResult` -/
structure ScenarioResult where
  success : Bool
  steps : Nat
  passed : Nat
  failed : Nat
  bugs : List DetectedBug
deriving DecidableEq, Repr

/-- The step loop of `runScenario`: run the declared steps in order,
counting passed and failed steps and collecting each failed step's bug.
`abortAt = some i` models an unexpected error (setup, logging or
aggregation) thrown before step index `i` executes, which jumps to the
scenario-level catch block and stops the loop; no step failure itself ever
stops the loop. -/
def runScenarioLoop (results : Nat → StepExecutionResult)
    (abortAt : Option Nat) :
    Nat → Nat → Nat → Nat → List DetectedBug → Nat × Nat × List DetectedBug
  | _, 0, passed, failed, bugs => (passed, failed, bugs)
  | i, remaining + 1, passed, failed, bugs =>
    if abortAt = some i then
      (passed, failed, bugs)
    else
      let r := results i
      if r.success then
        runScenarioLoop results abortAt (i + 1) remaining (passed + 1) failed bugs
      else
        runScenarioLoop results abortAt (i + 1) remaining passed (failed + 1)
          (bugs ++ r.bug.toList)

/-- `runScenario`: execute every step of the scenario in declared order via
`executeStep` (abstracted here as the per-step results function), aggregate
pass/fail counts and bugs, and report `success := failedSteps = 0`. An
abort (modelled by `abortAt`) is caught at scenario level and the result is
still built from the counts accumulated so far. -/
def runScenario (stepCount : Nat) (results : Nat → StepExecutionResult)
    (abortAt : Option Nat) : ScenarioResult :=
  let out := runScenarioLoop results abortAt 0 stepCount 0 0 []
  { success := out.2.1 = 0
    steps := stepCount
    passed := out.1
    failed := out.2.1
    bugs := out.2.2 }

end Agent

/-! ## Spec-side definitions

Definitions in this section follow the specification's wording, to be
compared against the embedded source functions. -/

/-- The classification decision as the spec words it: the first category in
the fixed order application-defect, agent-defect, environment-defect whose
score attains the maximum. -/
def firstMaxCategory (app agent env : Nat) : BugClassification :=
  let m := max app (max agent env)
  if app = m then BugClassification.app_bug
  else if agent = m then BugClassification.agent_bug
  else BugClassification.environment_issue

/-- The healing-strategy selection as the spec (and claim) words it,
including the `locator` and `navigation` substrings. -/
def specSelectStrategy (error : JsError) (attemptNumber : Nat) : HealingStrategy :=
  let text := strToLower error.message
  if attemptNumber = 1 then
    HealingStrategy.wait_and_retry
  else if attemptNumber = 2 then
    if jsIncludes text "timeout" || jsIncludes text "not found" ||
        jsIncludes text "no element" || jsIncludes text "locator" then
      HealingStrategy.alternative_selector
    else if jsIncludes text "network" || jsIncludes text "loading" ||
        jsIncludes text "hydrat" || jsIncludes text "navigation" then
      HealingStrategy.refresh_and_retry
    else
      HealingStrategy.screenshot_analysis
  else
    HealingStrategy.reset_to_known_state

/-- Number of attempts in `[lo, lo + len)` whose healing reports failure. -/
def healFailCount (env : Nat → Agent.AttemptEnv) (lo : Nat) : Nat → Nat
  | 0 => 0
  | len + 1 =>
    (if (env lo).healSuccess then 0 else 1) + healFailCount env (lo + 1) len

/-! ## Concrete fixtures for witnesses and counterexamples -/

def elemButton : InteractiveElement :=
  ⟨"btn-1", "button", "#save", "#save", "Save", none, none, false, true,
    none, none, ⟨0, 0, 10, 10⟩⟩

/-- An observation carrying one 503 network error and one console
`TypeError`, with interactive elements present and no loading indicator. -/
def obs503 : PageObservation :=
  { url := "http://localhost:5173/leads"
    title := "Leads"
    interactiveElements := [elemButton]
    forms := []
    modals := []
    toasts := []
    loadingIndicators := false
    consoleErrors := ["TypeError: x is undefined"]
    networkErrors := [⟨"http://localhost:5173/api/leads", "GET", some 503, none⟩]
    screenshot := some "step-1.png"
    timestamp := 0 }

def errValidation : JsError := ⟨"Validation failed: expected toast"⟩

def errLocator : JsError := ⟨"Error: locator resolved to hidden element"⟩

def errTimeout : JsError := ⟨"Timeout 5000ms exceeded waiting for selector"⟩

def step1 : ScenarioStep :=
  ⟨"Create Lead", "Click Add Lead and submit", none, none, none, none⟩

def step2 : ScenarioStep := ⟨"s2", "g2", none, none, some 2, none⟩

def step3 : ScenarioStep := ⟨"s3", "g3", none, none, none, none⟩

def step0 : ScenarioStep := ⟨"s0", "g0", none, none, some 0, none⟩

/-- A parsed oracle diagnosis carrying an out-of-range confidence. -/
def rawBug : DetectedBug :=
  ⟨BugClassification.app_bug, 2, "t", "d", Severity.medium, [], "e", "a",
    [], [], [], "", 0, ""⟩

def ctx503 : BugDetector.DiagnosisContext :=
  ⟨step1, errValidation, obs503, ["click on #save"]⟩

/-- Every attempt fails validation and every healing attempt fails. -/
def envAllFail : Nat → Agent.AttemptEnv := fun _ => ⟨false, false, rawBug⟩

/-- Attempt 1 fails (with failed healing, so a bug is diagnosed mid-step);
attempt 2 passes. -/
def env10 : Nat → Agent.AttemptEnv := fun n =>
  if n = 2 then ⟨true, true, rawBug⟩ else ⟨false, false, rawBug⟩

/-- A per-step result that reports failure (used for scenario fixtures). -/
def failedStepResult : Agent.StepExecutionResult := ⟨false, 3, some rawBug⟩

/-- Step 0 passes, every later step fails. -/
def mixedResults : Nat → Agent.StepExecutionResult := fun n =>
  if n = 0 then ⟨true, 1, none⟩ else failedStepResult

/-- An observation with no signals at all. -/
def obsBland : PageObservation :=
  { url := "http://localhost:5173/"
    title := "Home"
    interactiveElements := []
    forms := []
    modals := []
    toasts := []
    loadingIndicators := false
    consoleErrors := []
    networkErrors := []
    screenshot := none
    timestamp := 0 }

/-- An error text matching none of the detector patterns. -/
def errBland : JsError := ⟨"mysterious failure"⟩

/-- A context with zero heuristic signals, forcing the oracle fallback. -/
def ctxBland : BugDetector.DiagnosisContext := ⟨step1, errBland, obsBland, []⟩

/-- A parsed oracle plan carrying an out-of-range confidence. -/
def rawPlan2 : ActionPlan := ⟨"r", [], "outcome", 2⟩

/-- A parsed oracle diagnosis whose confidence happens to lie in range. -/
def rawBugHalf : DetectedBug :=
  ⟨BugClassification.app_bug, 1, "t", "d", Severity.medium, [], "e", "a",
    [], [], [], "", 0, ""⟩

/-! ## Helper lemmas -/

/-- The source's `maxScore`-comparison chain agrees with the spec's
"first category attaining the maximum" decision (its trailing `unknown`
branch is dead: the maximum always equals one of the three scores). -/
theorem decision_of_max (a g e : Nat) :
    (if max a (max g e) = a then BugClassification.app_bug
     else if max a (max g e) = g then BugClassification.agent_bug
     else if max a (max g e) = e then BugClassification.environment_issue
     else BugClassification.unknown) = firstMaxCategory a g e := by
  obtain ⟨n, hn⟩ : ∃ n, max g e = n := ⟨_, rfl⟩
  obtain ⟨m, hm⟩ : ∃ m, max a n = m := ⟨_, rfl⟩
  have h1 : m = a ∨ m = n := hm ▸ max_choice a n
  have h2 : n = g ∨ n = e := hn ▸ max_choice g e
  have hga : g ≤ n := hn ▸ le_max_left g e
  have hge : e ≤ n := hn ▸ le_max_right g e
  have ham : a ≤ m := hm ▸ le_max_left a n
  have hnm : n ≤ m := hm ▸ le_max_right a n
  simp only [firstMaxCategory, hn, hm]
  split_ifs <;> first | rfl | omega

/-! ## Claim theorems -/

/-- C1: for every error and observation, `analyzeWithHeuristics` returns
classification `unknown` with confidence exactly `0` when the sum of the
three detector scores is `0`; otherwise its confidence is
`max(appScore, agentScore, envScore) / (total + 1)` and its classification
is the first category in the order app-defect, agent-defect,
environment-defect attaining the maximum score. -/
theorem c1_classification_decision (error : JsError) (observation : PageObservation) :
    ((BugDetector.detectAppBugIndicators observation (strToLower error.message)).score +
        (BugDetector.detectAgentBugIndicators observation (strToLower error.message)).score +
        (BugDetector.detectEnvironmentIndicators observation (strToLower error.message)).score = 0 →
      (BugDetector.analyzeWithHeuristics error observation).classification =
          BugClassification.unknown ∧
        (BugDetector.analyzeWithHeuristics error observation).confidence = 0) ∧
    ((BugDetector.detectAppBugIndicators observation (strToLower error.message)).score +
        (BugDetector.detectAgentBugIndicators observation (strToLower error.message)).score +
        (BugDetector.detectEnvironmentIndicators observation (strToLower error.message)).score ≠ 0 →
      (BugDetector.analyzeWithHeuristics error observation).confidence =
          ((max (BugDetector.detectAppBugIndicators observation (strToLower error.message)).score
              (max (BugDetector.detectAgentBugIndicators observation (strToLower error.message)).score
                (BugDetector.detectEnvironmentIndicators observation (strToLower error.message)).score) : Nat) : ℚ) /
            ((((BugDetector.detectAppBugIndicators observation (strToLower error.message)).score +
                (BugDetector.detectAgentBugIndicators observation (strToLower error.message)).score +
                (BugDetector.detectEnvironmentIndicators observation (strToLower error.message)).score : Nat) : ℚ) + 1) ∧
        (BugDetector.analyzeWithHeuristics error observation).classification =
          firstMaxCategory
            (BugDetector.detectAppBugIndicators observation (strToLower error.message)).score
            (BugDetector.detectAgentBugIndicators observation (strToLower error.message)).score
            (BugDetector.detectEnvironmentIndicators observation (strToLower error.message)).score) := by
  constructor
  · intro h
    simp only [BugDetector.analyzeWithHeuristics]
    rw [if_pos h]
    exact ⟨rfl, rfl⟩
  · intro h
    simp only [BugDetector.analyzeWithHeuristics]
    rw [if_neg h]
    exact ⟨rfl, decision_of_max _ _ _⟩

/-- Witness for C1: with one 503 response and one console `TypeError`
(app score 5, agent score 0, environment score 0) the total is nonzero and
the decision is `app_bug`. -/
theorem c1_classification_decision_witness :
    (BugDetector.analyzeWithHeuristics errValidation obs503).classification =
      BugClassification.app_bug := by
  have h := (c1_classification_decision errValidation obs503).2 (by decide)
  exact h.2.trans (by decide)

/-- Counterexample for C2: at attempt 2, an error text containing `locator`
(and none of the other trigger substrings) makes the step runner's own
selection (`Agent.selectHealingStrategy`, the method `handleStepFailure`
calls) return `screenshot_analysis`, not the `alternative_selector` the
claim requires for `locator` errors. -/
theorem c2_counterexample :
    jsIncludes (strToLower errLocator.message) "locator" = true ∧
    Agent.selectHealingStrategy errLocator 2 = HealingStrategy.screenshot_analysis ∧
    Agent.selectHealingStrategy errLocator 2 ≠ HealingStrategy.alternative_selector := by
  refine ⟨by decide, by decide, by decide⟩

/-- C2 (amended): the step runner's strategy selection
(`Agent.selectHealingStrategy`) is determined solely by the attempt number
and the lower-cased error text, with attempt 1 mapping to `wait_and_retry`,
attempt 2 dispatching on the substring sets {timeout, not found, no element}
and {network, loading, hydrat} (without `locator` or `navigation`), and
attempts ≥ 3 mapping to `reset_to_known_state`; the claimed substring sets
including `locator` and `navigation` describe `SelfHealer.selectStrategy`,
which the step runner does not invoke. -/
theorem c2_strategy_selection_amended (e : JsError) (n : Nat) :
    (n = 1 → Agent.selectHealingStrategy e n = HealingStrategy.wait_and_retry) ∧
    (3 ≤ n → Agent.selectHealingStrategy e n = HealingStrategy.reset_to_known_state) ∧
    ((jsIncludes (strToLower e.message) "timeout" ||
        jsIncludes (strToLower e.message) "not found" ||
        jsIncludes (strToLower e.message) "no element") = true →
      Agent.selectHealingStrategy e 2 = HealingStrategy.alternative_selector) ∧
    ((jsIncludes (strToLower e.message) "timeout" ||
        jsIncludes (strToLower e.message) "not found" ||
        jsIncludes (strToLower e.message) "no element") = false →
      (jsIncludes (strToLower e.message) "network" ||
        jsIncludes (strToLower e.message) "loading" ||
        jsIncludes (strToLower e.message) "hydrat") = true →
      Agent.selectHealingStrategy e 2 = HealingStrategy.refresh_and_retry) ∧
    ((jsIncludes (strToLower e.message) "timeout" ||
        jsIncludes (strToLower e.message) "not found" ||
        jsIncludes (strToLower e.message) "no element") = false →
      (jsIncludes (strToLower e.message) "network" ||
        jsIncludes (strToLower e.message) "loading" ||
        jsIncludes (strToLower e.message) "hydrat") = false →
      Agent.selectHealingStrategy e 2 = HealingStrategy.screenshot_analysis) ∧
    SelfHealer.selectStrategy e n = specSelectStrategy e n := by
  refine ⟨?_, ?_, ?_, ?_, ?_, rfl⟩
  · intro h
    subst h
    rfl
  · intro h
    simp only [Agent.selectHealingStrategy]
    rw [if_neg (by omega), if_neg (by omega)]
  · intro hpat
    simp only [Agent.selectHealingStrategy]
    rw [if_neg (by omega), if_pos trivial, if_pos hpat]
  · intro h1 h2
    simp only [Agent.selectHealingStrategy]
    rw [if_neg (by omega), if_pos trivial, if_neg (by simp [h1]), if_pos h2]
  · intro h1 h2
    simp only [Agent.selectHealingStrategy]
    rw [if_neg (by omega), if_pos trivial, if_neg (by simp [h1]), if_neg (by simp [h2])]

/-- Witness for C2: a timeout error text at attempt 2 selects
`alternative_selector` in the step runner, and on a `locator` error the
SelfHealer variant agrees with the claimed selection. -/
theorem c2_strategy_selection_amended_witness :
    Agent.selectHealingStrategy errTimeout 2 = HealingStrategy.alternative_selector ∧
    SelfHealer.selectStrategy errLocator 2 = specSelectStrategy errLocator 2 :=
  ⟨(c2_strategy_selection_amended errTimeout 2).2.2.1 (by decide),
    (c2_strategy_selection_amended errLocator 2).2.2.2.2.2⟩


/-- Healing is invoked at most `fuel - 1` times by the attempt loop. -/
theorem executeStepLoop_heals_le (env : Nat → Agent.AttemptEnv) :
    ∀ fuel attempt bug heals classifies,
      (Agent.executeStepLoop env fuel attempt bug heals classifies).2.1 ≤
        heals + (fuel - 1)
  | 0, a, bug, h, c => by simp [Agent.executeStepLoop]
  | fuel + 1, a, bug, h, c => by
    simp only [Agent.executeStepLoop]
    split_ifs with h1 h2 h3
    · simp
    · subst h2
      simp [Agent.executeStepLoop]
    · have := executeStepLoop_heals_le env fuel (a + 1) bug (h + 1) c
      omega
    · have := executeStepLoop_heals_le env fuel (a + 1) (some (env (a + 1)).bug)
        (h + 1) (c + 1)
      omega

/-- A successful run of the attempt loop carries no bug in its result. -/
theorem executeStepLoop_success_bug_none (env : Nat → Agent.AttemptEnv) :
    ∀ fuel attempt bug heals classifies,
      (Agent.executeStepLoop env fuel attempt bug heals classifies).1.success = true →
      (Agent.executeStepLoop env fuel attempt bug heals classifies).1.bug = none
  | 0, a, bug, h, c => by simp [Agent.executeStepLoop]
  | fuel + 1, a, bug, h, c => by
    simp only [Agent.executeStepLoop]
    split_ifs with h1 h2 h3
    · intro _
      rfl
    · exact executeStepLoop_success_bug_none env fuel (a + 1) (some (env (a + 1)).bug)
        h (c + 1)
    · exact executeStepLoop_success_bug_none env fuel (a + 1) bug (h + 1) c
    · exact executeStepLoop_success_bug_none env fuel (a + 1) (some (env (a + 1)).bug)
        (h + 1) (c + 1)

/-- A failing run of a nonempty attempt loop invokes the classifier at
least once beyond the initial count. -/
theorem executeStepLoop_fail_classifies (env : Nat → Agent.AttemptEnv) :
    ∀ fuel attempt bug heals classifies, fuel ≠ 0 →
      (Agent.executeStepLoop env fuel attempt bug heals classifies).1.success = false →
      classifies + 1 ≤ (Agent.executeStepLoop env fuel attempt bug heals classifies).2.2
  | 0, a, bug, h, c => by omega
  | fuel + 1, a, bug, h, c => by
    intro _ hfail
    revert hfail
    simp only [Agent.executeStepLoop]
    split_ifs with h1 h2 h3
    · intro hfail
      simp at hfail
    · intro _
      subst h2
      simp [Agent.executeStepLoop]
    · intro hfail
      exact executeStepLoop_fail_classifies env fuel (a + 1) bug (h + 1) c h2 hfail
    · intro hfail
      have := executeStepLoop_fail_classifies env fuel (a + 1)
        (some (env (a + 1)).bug) (h + 1) (c + 1) h2 hfail
      omega

/-- Closed form of the attempt loop when every attempt in its window fails:
the loop exhausts the budget, keeps the last diagnosis, heals on every
non-final attempt, and classifies once per failed healing plus once at the
final attempt. -/
theorem executeStepLoop_all_fail (env : Nat → Agent.AttemptEnv) :
    ∀ fuel attempt bug heals classifies, fuel ≠ 0 →
      (∀ i, attempt < i → i ≤ attempt + fuel → (env i).passed = false) →
      Agent.executeStepLoop env fuel attempt bug heals classifies =
        (⟨false, attempt + fuel, some (env (attempt + fuel)).bug⟩,
          heals + (fuel - 1),
          classifies + healFailCount env (attempt + 1) (fuel - 1) + 1)
  | 0, a, bug, h, c => by omega
  | fuel + 1, a, bug, h, c => by
    intro _ hall
    have hpa : (env (a + 1)).passed = false := hall (a + 1) (by omega) (by omega)
    simp only [Agent.executeStepLoop]
    rw [if_neg (by simp [hpa])]
    cases fuel with
    | zero =>
      rw [if_pos rfl]
      simp [Agent.executeStepLoop, healFailCount]
    | succ k =>
      rw [if_neg (by omega)]
      have harith1 : a + 1 + (k + 1) = a + (k + 1 + 1) := by omega
      by_cases hs : (env (a + 1)).healSuccess
      · rw [if_pos hs]
        rw [executeStepLoop_all_fail env (k + 1) (a + 1) bug (h + 1) c (by omega)
          (fun i hi1 hi2 => hall i (by omega) (by omega))]
        simp [healFailCount, hs, harith1]
        omega
      · rw [if_neg hs]
        rw [executeStepLoop_all_fail env (k + 1) (a + 1) (some (env (a + 1)).bug)
          (h + 1) (c + 1) (by omega)
          (fun i hi1 hi2 => hall i (by omega) (by omega))]
        simp [healFailCount, hs, harith1]
        omega

/-- If every attempt before `k` fails and attempt `k` passes (within the
window), the attempt loop terminates successfully at attempt `k` with no
bug in its result. -/
theorem executeStepLoop_first_pass (env : Nat → Agent.AttemptEnv) (k : Nat)
    (hk : (env k).passed = true) :
    ∀ fuel attempt bug heals classifies, attempt < k → k ≤ attempt + fuel →
      (∀ i, attempt < i → i < k → (env i).passed = false) →
      (Agent.executeStepLoop env fuel attempt bug heals classifies).1 =
        ⟨true, k, none⟩
  | 0, a, bug, h, c => by omega
  | fuel + 1, a, bug, h, c => by
    intro hak hkf hprev
    by_cases hk1 : a + 1 = k
    · simp only [Agent.executeStepLoop]
      rw [if_pos (hk1 ▸ hk)]
      simp [hk1]
    · have hfail : (env (a + 1)).passed = false := hprev (a + 1) (by omega) (by omega)
      simp only [Agent.executeStepLoop]
      rw [if_neg (by simp [hfail]), if_neg (by omega)]
      by_cases hs : (env (a + 1)).healSuccess
      · rw [if_pos hs]
        exact executeStepLoop_first_pass env k hk fuel (a + 1) bug (h + 1) c
          (by omega) (by omega) (fun i hi1 hi2 => hprev i (by omega) hi2)
      · rw [if_neg hs]
        exact executeStepLoop_first_pass env k hk fuel (a + 1)
          (some (env (a + 1)).bug) (h + 1) (c + 1)
          (by omega) (by omega) (fun i hi1 hi2 => hprev i (by omega) hi2)

/-- Counterexample for C3: a step declaring `maxAttempts = 0` has effective
attempt budget `0`, which is not at least `1` (the code applies no lower
clamp to `step.maxAttempts ?? 3`). -/
theorem c3_budget_counterexample : ¬ (1 ≤ Agent.effectiveBudget step0) := by decide

/-- C3 (amended): the effective attempt budget is `step.maxAttempts` when
set and `3` otherwise (it is at least 1 only when `maxAttempts` is unset or
positive, since no clamping occurs); within one step execution, healing
runs at most `budget - 1` times, and when the step ultimately fails with a
budget of at least 1 the failure classifier is invoked (the final attempt's
failure goes to classification, never to healing). -/
theorem c3_attempt_budget (step : ScenarioStep) (env : Nat → Agent.AttemptEnv) :
    (step.maxAttempts = none → Agent.effectiveBudget step = 3) ∧
    (∀ n, step.maxAttempts = some n → Agent.effectiveBudget step = n) ∧
    (Agent.executeStep step env).2.1 ≤ Agent.effectiveBudget step - 1 ∧
    ((Agent.executeStep step env).1.success = false →
      1 ≤ Agent.effectiveBudget step →
      1 ≤ (Agent.executeStep step env).2.2) := by
  refine ⟨?_, ?_, ?_, ?_⟩
  · intro h
    simp [Agent.effectiveBudget, h, Agent.MAX_HEALING_ATTEMPTS]
  · intro n h
    simp [Agent.effectiveBudget, h]
  · simpa [Agent.executeStep] using
      executeStepLoop_heals_le env (Agent.effectiveBudget step) 0 none 0 0
  · intro hfail hb
    simpa [Agent.executeStep] using
      executeStepLoop_fail_classifies env (Agent.effectiveBudget step) 0 none 0 0
        (by omega) (by simpa [Agent.executeStep] using hfail)

/-- Witness for C3: a step with no `maxAttempts` has budget 3; with budget
2 and all attempts failing, healing ran at most once and the classifier at
least once. -/
theorem c3_attempt_budget_witness :
    Agent.effectiveBudget step3 = 3 ∧
    (Agent.executeStep step2 envAllFail).2.1 ≤ Agent.effectiveBudget step2 - 1 ∧
    1 ≤ (Agent.executeStep step2 envAllFail).2.2 :=
  ⟨(c3_attempt_budget step3 envAllFail).1 rfl,
    (c3_attempt_budget step2 envAllFail).2.2.1,
    (c3_attempt_budget step2 envAllFail).2.2.2 (by decide) (by decide)⟩

/-- Counterexample for C4: with budget 2, a failed attempt 1 whose healing
fails triggers the classifier, and the loop then consumes attempt 2, which
fails and triggers the classifier again — two classifier invocations for
one ultimately-failing step, not exactly one. -/
theorem c4_counterexample : (Agent.executeStep step2 envAllFail).2.2 ≠ 1 := by decide

/-- C4 (amended): when a healing attempt reports failure, the classifier is
invoked immediately, but the attempt loop still continues with the
remaining attempts; for a step whose every attempt fails, the classifier is
invoked once per failed-healing attempt plus once on the final attempt, the
step reports failure after consuming the whole budget, and healing ran on
every non-final attempt. -/
theorem c4_classifier_invocations (step : ScenarioStep)
    (env : Nat → Agent.AttemptEnv) (h1 : 1 ≤ Agent.effectiveBudget step)
    (h2 : ∀ i, 1 ≤ i → i ≤ Agent.effectiveBudget step → (env i).passed = false) :
    (Agent.executeStep step env).1.success = false ∧
    (Agent.executeStep step env).2.2 =
      healFailCount env 1 (Agent.effectiveBudget step - 1) + 1 ∧
    (Agent.executeStep step env).2.1 = Agent.effectiveBudget step - 1 ∧
    (Agent.executeStep step env).1.attempts = Agent.effectiveBudget step := by
  have h := executeStepLoop_all_fail env (Agent.effectiveBudget step) 0 none 0 0
    (by omega) (fun i hi1 hi2 => h2 i (by omega) (by omega))
  simp only [Agent.executeStep, h]
  simp

/-- Witness for C4: budget 2 with every attempt and every healing failing
gives one failed healing plus the final classification: two classifier
invocations. -/
theorem c4_classifier_invocations_witness :
    (Agent.executeStep step2 envAllFail).1.success = false ∧
    (Agent.executeStep step2 envAllFail).2.2 = healFailCount envAllFail 1 1 + 1 :=
  ⟨(c4_classifier_invocations step2 envAllFail (by decide) (fun i _ _ => rfl)).1,
    (c4_classifier_invocations step2 envAllFail (by decide) (fun i _ _ => rfl)).2.1⟩

/-- C5: every step execution carries at most one `DetectedBug` in its
result, and none at all when the step succeeds, regardless of how many
attempts and failed healings occurred. -/
theorem c5_at_most_one_bug (step : ScenarioStep) (env : Nat → Agent.AttemptEnv) :
    ((Agent.executeStep step env).1.success = true →
      (Agent.executeStep step env).1.bug = none) ∧
    (Agent.executeStep step env).1.bug.toList.length ≤ 1 := by
  constructor
  · exact executeStepLoop_success_bug_none env (Agent.effectiveBudget step) 0 none 0 0
  · cases hb : (Agent.executeStep step env).1.bug <;> simp

/-- Witness for C5: the run that succeeds at attempt 2 (after a failed
healing at attempt 1) carries no bug. -/
theorem c5_at_most_one_bug_witness :
    (Agent.executeStep step3 env10).1.bug = none :=
  (c5_at_most_one_bug step3 env10).1 (by decide)

/-- C10: if every attempt before `k` fails and attempt `k` (within budget)
passes validation, the step result is success at attempt `k` with no
`DetectedBug` attached — any diagnosis made after an earlier failed healing
is discarded. -/
theorem c10_success_discards_bug (step : ScenarioStep)
    (env : Nat → Agent.AttemptEnv) (k : Nat) (hk1 : 1 ≤ k)
    (hk2 : k ≤ Agent.effectiveBudget step)
    (hprev : ∀ i, 1 ≤ i → i < k → (env i).passed = false)
    (hk : (env k).passed = true) :
    (Agent.executeStep step env).1 = ⟨true, k, none⟩ :=
  executeStepLoop_first_pass env k hk (Agent.effectiveBudget step) 0 none 0 0
    (by omega) (by omega) (fun i hi1 hi2 => hprev i (by omega) hi2)

/-- Witness for C10: attempt 1 fails with failed healing (so the classifier
ran once and produced a diagnosis), attempt 2 passes: the result is success
with no bug. -/
theorem c10_success_discards_bug_witness :
    (Agent.executeStep step3 env10).1 = ⟨true, 2, none⟩ ∧
    (Agent.executeStep step3 env10).2.2 = 1 :=
  ⟨c10_success_discards_bug step3 env10 2 (by decide) (by decide)
      (fun i hi1 hi2 => by
        have hi : i = 1 := by omega
        subst hi
        decide)
      (by decide),
    by decide⟩


/-- The heuristic confidence formula, in the nonzero-total case. -/
theorem analyze_confidence_eq (e : JsError) (o : PageObservation)
    (h : (BugDetector.detectAppBugIndicators o (strToLower e.message)).score +
        (BugDetector.detectAgentBugIndicators o (strToLower e.message)).score +
        (BugDetector.detectEnvironmentIndicators o (strToLower e.message)).score ≠ 0) :
    (BugDetector.analyzeWithHeuristics e o).confidence =
      ((max (BugDetector.detectAppBugIndicators o (strToLower e.message)).score
          (max (BugDetector.detectAgentBugIndicators o (strToLower e.message)).score
            (BugDetector.detectEnvironmentIndicators o (strToLower e.message)).score) : Nat) : ℚ) /
        ((((BugDetector.detectAppBugIndicators o (strToLower e.message)).score +
            (BugDetector.detectAgentBugIndicators o (strToLower e.message)).score +
            (BugDetector.detectEnvironmentIndicators o (strToLower e.message)).score : Nat) : ℚ) + 1) := by
  simp only [BugDetector.analyzeWithHeuristics]
  rw [if_neg h]

/-- The damped ratio `max/(total + 1)` lies in `[0, 1]`. -/
theorem ratio_bounds (a g e : Nat) :
    (0 : ℚ) ≤ ((max a (max g e) : Nat) : ℚ) / (((a + g + e : Nat) : ℚ) + 1) ∧
    ((max a (max g e) : Nat) : ℚ) / (((a + g + e : Nat) : ℚ) + 1) ≤ 1 := by
  have hm : max a (max g e) ≤ a + g + e :=
    Nat.max_le.mpr ⟨by omega, Nat.max_le.mpr ⟨by omega, by omega⟩⟩
  have hden : (0 : ℚ) < ((a + g + e : Nat) : ℚ) + 1 := by positivity
  constructor
  · positivity
  · rw [div_le_one hden]
    have hcast : ((max a (max g e) : Nat) : ℚ) ≤ ((a + g + e : Nat) : ℚ) := by
      exact_mod_cast hm
    linarith

/-- The heuristic confidence is always in `[0, 1]`. -/
theorem analyze_confidence_bounds (e : JsError) (o : PageObservation) :
    0 ≤ (BugDetector.analyzeWithHeuristics e o).confidence ∧
    (BugDetector.analyzeWithHeuristics e o).confidence ≤ 1 := by
  simp only [BugDetector.analyzeWithHeuristics]
  split_ifs <;>
    first
      | exact ⟨le_refl 0, zero_le_one⟩
      | exact ratio_bounds _ _ _

/-- On the below-threshold (oracle fallback) path, the diagnosed bug's
confidence is exactly the oracle's parsed confidence. -/
theorem diagnose_confidence_low (ctx : BugDetector.DiagnosisContext)
    (oracleRaw : DetectedBug) (now : Nat)
    (h : ¬ (BugDetector.analyzeWithHeuristics ctx.error ctx.observation).confidence ≥
      BugDetector.CONFIDENCE_THRESHOLD_HIGH) :
    (BugDetector.diagnose ctx oracleRaw now).confidence = oracleRaw.confidence := by
  simp only [BugDetector.diagnose]
  rw [if_neg h]
  split_ifs <;> rfl

/-- Counterexample for C6: with zero heuristic signals the oracle fallback
is taken and a parsed oracle confidence of `2` flows through `diagnose`
unclamped; `parseActionPlan` likewise passes an out-of-range plan
confidence through. -/
theorem c6_counterexample :
    (BugDetector.diagnose ctxBland rawBug 7).confidence = 2 ∧
    ¬ ((BugDetector.diagnose ctxBland rawBug 7).confidence ≤ 1) ∧
    (ClaudeClient.parseActionPlan rawPlan2).confidence = 2 ∧
    ¬ ((ClaudeClient.parseActionPlan rawPlan2).confidence ≤ 1) := by
  have hh : BugDetector.analyzeWithHeuristics ctxBland.error ctxBland.observation =
      ⟨BugClassification.unknown, 0, []⟩ := by decide
  have hlow : ¬ (BugDetector.analyzeWithHeuristics ctxBland.error
      ctxBland.observation).confidence ≥ BugDetector.CONFIDENCE_THRESHOLD_HIGH := by
    rw [hh]
    norm_num [BugDetector.CONFIDENCE_THRESHOLD_HIGH]
  have hc := diagnose_confidence_low ctxBland rawBug 7 hlow
  refine ⟨hc.trans rfl, ?_, rfl, ?_⟩
  · rw [hc]
    show ¬ ((2 : ℚ) ≤ 1)
    norm_num
  · show ¬ ((2 : ℚ) ≤ 1)
    norm_num

/-- C6 (amended): the heuristic confidence is always in `[0, 1]`, and a bug
built from heuristics inherits it; on the oracle-fallback path the
confidence is the oracle's parsed value, passed through without clamping
(so it lies in `[0, 1]` exactly when the oracle's output does), and
`parseActionPlan` likewise passes the plan confidence through unclamped. -/
theorem c6_confidence_amended (ctx : BugDetector.DiagnosisContext)
    (oracleRaw : DetectedBug) (rawPlan : ActionPlan) (now : Nat) :
    (0 ≤ (BugDetector.analyzeWithHeuristics ctx.error ctx.observation).confidence ∧
      (BugDetector.analyzeWithHeuristics ctx.error ctx.observation).confidence ≤ 1) ∧
    ((BugDetector.diagnose ctx oracleRaw now).confidence =
        (BugDetector.analyzeWithHeuristics ctx.error ctx.observation).confidence ∨
      (BugDetector.diagnose ctx oracleRaw now).confidence = oracleRaw.confidence) ∧
    (0 ≤ oracleRaw.confidence → oracleRaw.confidence ≤ 1 →
      0 ≤ (BugDetector.diagnose ctx oracleRaw now).confidence ∧
        (BugDetector.diagnose ctx oracleRaw now).confidence ≤ 1) ∧
    (ClaudeClient.parseActionPlan rawPlan).confidence = rawPlan.confidence := by
  have hb := analyze_confidence_bounds ctx.error ctx.observation
  have hdisj : (BugDetector.diagnose ctx oracleRaw now).confidence =
      (BugDetector.analyzeWithHeuristics ctx.error ctx.observation).confidence ∨
      (BugDetector.diagnose ctx oracleRaw now).confidence = oracleRaw.confidence := by
    simp only [BugDetector.diagnose]
    split_ifs
    · left
      rfl
    · right
      rfl
    · right
      rfl
  refine ⟨hb, hdisj, ?_, rfl⟩
  intro h0 h1q
  rcases hdisj with h | h <;> rw [h]
  · exact hb
  · exact ⟨h0, h1q⟩

/-- Witness for C6: an in-range oracle confidence stays in range through
the fallback path. -/
theorem c6_confidence_amended_witness :
    0 ≤ (BugDetector.diagnose ctxBland rawBugHalf 7).confidence ∧
    (BugDetector.diagnose ctxBland rawBugHalf 7).confidence ≤ 1 :=
  (c6_confidence_amended ctxBland rawBugHalf rawPlan2 7).2.2.1
    zero_le_one (le_refl 1)

/-- C7: a `wait_and_retry` recovery always reports success and returns the
fresh observation, for every recovery context and every outcome of the
loading-indicator polling. -/
theorem c7_wait_and_retry_always_succeeds (error : JsError)
    (observation : PageObservation) (plan : ActionPlan)
    (failedAction : Option PlannedAction) (baseUrl stepStartUrl : Option String)
    (env : SelfHealer.HealEnv) :
    (SelfHealer.attemptRecovery
        ⟨error, observation, plan, HealingStrategy.wait_and_retry,
          failedAction, baseUrl, stepStartUrl⟩ env).success = true ∧
    (SelfHealer.attemptRecovery
        ⟨error, observation, plan, HealingStrategy.wait_and_retry,
          failedAction, baseUrl, stepStartUrl⟩ env).newObservation =
      some env.freshObservation :=
  ⟨rfl, rfl⟩

/-- Counterexample for C8: on the heuristic path (confidence 5/6 ≥ 0.8 for
the 503-plus-TypeError fixture) `BugDetector.diagnose` returns a bug whose
`sessionId` is the empty string — not the owning session identifier — while
the `Agent.diagnoseBug` path does attach the session id. -/
theorem c8_counterexample :
    BugDetector.CONFIDENCE_THRESHOLD_HIGH ≤
      (BugDetector.analyzeWithHeuristics errValidation obs503).confidence ∧
    (BugDetector.diagnose ctx503 rawBug 7).sessionId = "" ∧
    (Agent.diagnoseBug (some "probe-1") rawBug obs503 7).sessionId = "probe-1" ∧
    ("" : String) ≠ "probe-1" := by
  refine ⟨?_, rfl, by decide, by decide⟩
  have e1 : (BugDetector.detectAppBugIndicators obs503 (strToLower errValidation.message)).score = 5 := by
    decide
  have e2 : (BugDetector.detectAgentBugIndicators obs503 (strToLower errValidation.message)).score = 0 := by
    decide
  have e3 : (BugDetector.detectEnvironmentIndicators obs503 (strToLower errValidation.message)).score = 0 := by
    decide
  have h := analyze_confidence_eq errValidation obs503 (by decide)
  rw [h, e1, e2, e3]
  norm_num [BugDetector.CONFIDENCE_THRESHOLD_HIGH]

/-- C8 (amended): every `DetectedBug`, from either origin, is enriched
before being returned with the triggering observation's URL, its screenshot
artifact when present, its console and network error lists, and a
timestamp; the owning session identifier, however, is attached only on the
`Agent.diagnoseBug` path (`this.sessionId` with an empty-string default), while
`BugDetector.enrichBug` sets `sessionId` to the empty string for a caller
to fill in. -/
theorem c8_enrichment (ctx : BugDetector.DiagnosisContext)
    (oracleRaw : DetectedBug) (sid : Option String)
    (observation : PageObservation) (now : Nat) :
    ((BugDetector.diagnose ctx oracleRaw now).url = ctx.observation.url ∧
      (BugDetector.diagnose ctx oracleRaw now).screenshots =
        (match ctx.observation.screenshot with
          | some s => [s]
          | none => []) ∧
      (BugDetector.diagnose ctx oracleRaw now).consoleErrors =
        ctx.observation.consoleErrors ∧
      (BugDetector.diagnose ctx oracleRaw now).networkErrors =
        ctx.observation.networkErrors ∧
      (BugDetector.diagnose ctx oracleRaw now).timestamp = now ∧
      (BugDetector.diagnose ctx oracleRaw now).sessionId = "") ∧
    ((Agent.diagnoseBug sid oracleRaw observation now).url = observation.url ∧
      (Agent.diagnoseBug sid oracleRaw observation now).screenshots =
        (match observation.screenshot with
          | some s => [s]
          | none => []) ∧
      (Agent.diagnoseBug sid oracleRaw observation now).consoleErrors =
        observation.consoleErrors ∧
      (Agent.diagnoseBug sid oracleRaw observation now).networkErrors =
        observation.networkErrors ∧
      (Agent.diagnoseBug sid oracleRaw observation now).timestamp = now ∧
      (Agent.diagnoseBug sid oracleRaw observation now).sessionId = jsOrStr sid "") :=
  ⟨⟨rfl, rfl, rfl, rfl, rfl, rfl⟩, ⟨rfl, rfl, rfl, rfl, rfl, rfl⟩⟩


/-- The failed count of the scenario loop never decreases. -/
theorem runScenarioLoop_failed_ge (results : Nat → Agent.StepExecutionResult)
    (abortAt : Option Nat) :
    ∀ remaining i passed failed bugs,
      failed ≤ (Agent.runScenarioLoop results abortAt i remaining passed failed bugs).2.1
  | 0, i, p, f, bugs => by simp [Agent.runScenarioLoop]
  | r + 1, i, p, f, bugs => by
    simp only [Agent.runScenarioLoop]
    split_ifs with h1 h2
    · simp
    · exact runScenarioLoop_failed_ge results abortAt r (i + 1) (p + 1) f bugs
    · have := runScenarioLoop_failed_ge results abortAt r (i + 1) p (f + 1)
        (bugs ++ (results i).bug.toList)
      omega

/-- Without an abort, the loop visits every step in its window: the counts
grow by exactly the window size. -/
theorem runScenarioLoop_none_sum (results : Nat → Agent.StepExecutionResult) :
    ∀ remaining i passed failed bugs,
      (Agent.runScenarioLoop results none i remaining passed failed bugs).1 +
        (Agent.runScenarioLoop results none i remaining passed failed bugs).2.1 =
        passed + failed + remaining
  | 0, i, p, f, bugs => by simp [Agent.runScenarioLoop]
  | r + 1, i, p, f, bugs => by
    simp only [Agent.runScenarioLoop]
    rw [if_neg (by simp)]
    split_ifs with hs
    · have := runScenarioLoop_none_sum results r (i + 1) (p + 1) f bugs
      omega
    · have := runScenarioLoop_none_sum results r (i + 1) p (f + 1)
        (bugs ++ (results i).bug.toList)
      omega

/-- Without an abort, the failed count stays put iff every step of the
window succeeds. -/
theorem runScenarioLoop_none_failed_iff (results : Nat → Agent.StepExecutionResult) :
    ∀ remaining i passed failed bugs,
      ((Agent.runScenarioLoop results none i remaining passed failed bugs).2.1 = failed ↔
        ∀ j, i ≤ j → j < i + remaining → (results j).success = true)
  | 0, i, p, f, bugs => by
    simp only [Agent.runScenarioLoop]
    constructor
    · intro _ j h1 h2
      omega
    · intro _
      trivial
  | r + 1, i, p, f, bugs => by
    simp only [Agent.runScenarioLoop]
    rw [if_neg (by simp)]
    split_ifs with hs
    · rw [runScenarioLoop_none_failed_iff results r (i + 1) (p + 1) f bugs]
      constructor
      · intro hall j h1 h2
        by_cases hj : j = i
        · subst hj
          exact hs
        · exact hall j (by omega) (by omega)
      · intro hall j h1 h2
        exact hall j (by omega) (by omega)
    · have hge := runScenarioLoop_failed_ge results none r (i + 1) p (f + 1)
        (bugs ++ (results i).bug.toList)
      constructor
      · intro heq
        exfalso
        omega
      · intro hall
        exact absurd (hall i (le_refl i) (by omega)) (by simpa using hs)

/-- Aborting at step `a` behaves exactly like running the loop without an
abort on the window truncated at `a`. -/
theorem runScenarioLoop_abort_eq (results : Nat → Agent.StepExecutionResult)
    (a : Nat) :
    ∀ remaining i passed failed bugs, i ≤ a →
      Agent.runScenarioLoop results (some a) i remaining passed failed bugs =
        Agent.runScenarioLoop results none i (min remaining (a - i)) passed failed bugs
  | 0, i, p, f, bugs => by
    intro _
    simp [Agent.runScenarioLoop]
  | r + 1, i, p, f, bugs => by
    intro hia
    by_cases hi : a = i
    · subst hi
      simp [Agent.runScenarioLoop, Nat.sub_self]
    · have hmin : min (r + 1) (a - i) = min r (a - i - 1) + 1 := by omega
      have hsub : a - (i + 1) = a - i - 1 := by omega
      rw [hmin]
      simp only [Agent.runScenarioLoop]
      rw [if_neg (show ¬ some a = some i by simp [hi]),
        if_neg (show ¬ (none : Option Nat) = some i by simp)]
      by_cases hs : (results i).success = true
      · rw [if_pos hs, if_pos hs,
          runScenarioLoop_abort_eq results a r (i + 1) (p + 1) f bugs (by omega), hsub]
      · rw [if_neg hs, if_neg hs,
          runScenarioLoop_abort_eq results a r (i + 1) p (f + 1)
            (bugs ++ (results i).bug.toList) (by omega), hsub]


/-- Counterexample for C9: a one-step scenario aborted by an unexpected
error before its (failing) step runs reports `success = true` with zero
steps passed out of one declared — the returned outcome does not satisfy
"success iff every step reported success" in the abort case. -/
theorem c9_counterexample :
    (Agent.runScenario 1 (fun _ => failedStepResult) (some 0)).success = true ∧
    (Agent.runScenario 1 (fun _ => failedStepResult) (some 0)).passed = 0 ∧
    (Agent.runScenario 1 (fun _ => failedStepResult) (some 0)).steps = 1 ∧
    failedStepResult.success = false := by
  refine ⟨by decide, by decide, by decide, by decide⟩

/-- C9 (amended): `runScenario` executes the steps in declared order and
never skips a later step because an earlier one failed; the outcome reports
`success` iff the failed count is zero, which — absent an abort — holds iff
every declared step reported success. When an unexpected setup or
aggregation error aborts the scenario before step `a`, only the `a` steps
already run are counted, so the outcome reports success iff every step
that actually ran reported success (steps never run do not block
success). -/
theorem c9_scenario_success (n : Nat) (results : Nat → Agent.StepExecutionResult) :
    ((Agent.runScenario n results none).passed +
        (Agent.runScenario n results none).failed = n ∧
      ((Agent.runScenario n results none).success = true ↔
        ∀ i, i < n → (results i).success = true)) ∧
    (∀ a, a ≤ n →
      (Agent.runScenario n results (some a)).passed +
        (Agent.runScenario n results (some a)).failed = a ∧
      ((Agent.runScenario n results (some a)).success = true ↔
        ∀ i, i < a → (results i).success = true)) := by
  constructor
  · constructor
    · simpa [Agent.runScenario] using runScenarioLoop_none_sum results n 0 0 0 []
    · simp only [Agent.runScenario, decide_eq_true_eq]
      rw [runScenarioLoop_none_failed_iff results n 0 0 0 []]
      constructor
      · intro h i hi
        exact h i (by omega) (by omega)
      · intro h j h1 h2
        exact h j (by omega)
  · intro a ha
    have habort := runScenarioLoop_abort_eq results a n 0 0 0 [] (Nat.zero_le a)
    have hmin : min n (a - 0) = a := by omega
    rw [hmin] at habort
    constructor
    · simpa [Agent.runScenario, habort] using runScenarioLoop_none_sum results a 0 0 0 []
    · simp only [Agent.runScenario, habort, decide_eq_true_eq]
      rw [runScenarioLoop_none_failed_iff results a 0 0 0 []]
      constructor
      · intro h i hi
        exact h i (by omega) (by omega)
      · intro h j h1 h2
        exact h j (by omega)

/-- Witness for C9: with step 0 passing and step 1 failing, the scenario
covers both steps and reports failure. -/
theorem c9_scenario_success_witness :
    (Agent.runScenario 2 mixedResults none).success = false ∧
    (Agent.runScenario 2 mixedResults none).passed +
      (Agent.runScenario 2 mixedResults none).failed = 2 := by
  have h := (c9_scenario_success 2 mixedResults).1
  constructor
  · have hnot : ¬ ∀ i, i < 2 → (mixedResults i).success = true := by
      intro hall
      have h1 := hall 1 (by omega)
      revert h1
      decide
    cases hsucc : (Agent.runScenario 2 mixedResults none).success
    · rfl
    · exact absurd (h.2.mp hsucc) hnot
  · exact h.1

end Probe
